import Mathlib

/-!
Shallow embedding of `PyLTSpice/LTSpice_RawWrite.py`: the `Trace` helper
class and the `LTSpiceRawWrite` waveform writer (trace management, binary
payload sizing, duplicate-name renaming, and the axis-synchronisation merge
`add_traces_from_raw`).

Numeric samples are modelled as exact rationals (`Rat`); every comparison
performed by the translated code paths is far from any floating-point
boundary, so the branch outcomes agree with the Python `float` semantics.
Python exceptions are modelled by the `PyError` type; functions that can
raise return the state reached at raise time together with the error, so
partial-mutation behaviour is preserved.

The reader component `LTSpice_RawRead` (class `DataSet`, class
`LTSpiceRawRead`) is not part of this core; the few members the writer
consumes are modelled from the spec's collaborator interface and are marked
as such in their doc comments.
-/

namespace PyLTSpice

/-- Python exceptions raised by the translated code paths. -/
inductive PyError where
  | valueError : String → PyError
  | indexError : String → PyError
  | assertionError : String → PyError
  | notImplementedError : PyError
  | notFound : String → PyError
  | structError : String → PyError
deriving Repr, DecidableEq

/-- The `Trace` class (lines 27-46): a named data set.  The `DataSet` base
class lives in the excluded reader module; modelled from the spec, it stores
the `name` and the kind (`type`), its length is the sample count and
`get_wave()` returns the stored samples. -/
structure Trace where
  name : String
  type : String
  numerical_type : String
  data : List Rat
deriving Repr, DecidableEq, Inhabited

/-- `Trace.__init__` (lines 30-46): the kind and numeric representation are
classified from the `name` alone; the samples are stored in `data`.
(The copy-vs-alias distinction of lines 43-46 is modelled separately by
`traceInitStorage` below; here the sample values are taken as given.) -/
def Trace.init (name : String) (data : List Rat) : Trace :=
  if name = "time" then ⟨name, "time", "real", data⟩
  else if name = "frequency" then ⟨name, "frequency", "complex", data⟩
  else ⟨name, "voltage", "real", data⟩

/-- The `LTSpiceRawWrite` object state (lines 56-63).  `plot_name = none`
models Python `None`; `some s` models the string `s`. -/
structure LTSpiceRawWrite where
  traces : List Trace
  flag_numtype : String
  flag_stepped : Bool
  flag_fastaccess : Bool
  plot_name : Option String
  offset : Rat
deriving Repr, DecidableEq, Inhabited

/-- `LTSpiceRawWrite.__init__` (lines 56-63); Python default arguments are
`plot_name=''` (that is, `some ""`) and `fastacces=True`. -/
def LTSpiceRawWrite.init (plot_name : Option String) (fastacces : Bool) : LTSpiceRawWrite :=
  ⟨[], "real", false, fastacces, plot_name, 0⟩

/-- Python truthiness of `x or dflt` for an optional string: `None` and the
empty string are falsy. -/
def strOr (x : Option String) (dflt : String) : String :=
  match x with
  | none => dflt
  | some s => if s = "" then dflt else s

/-- `add_trace` (lines 82-111).  Returns the state after the call together
with the raised exception, if any; Python raises before the `append`, so on
error the state is unchanged. -/
def add_trace (self : LTSpiceRawWrite) (trace : Trace) : LTSpiceRawWrite × Option PyError :=
  if self.plot_name = none ∨ self.traces.length = 0 then
    if trace.type = "time" then
      ({ self with plot_name := some (strOr self.plot_name ("Time Transient")),
                   flag_numtype := "real", traces := self.traces ++ [trace] }, none)
    else if trace.type = "frequency" then
      ({ self with plot_name := some (strOr self.plot_name ("AC Analysis")),
                   flag_numtype := "complex", traces := self.traces ++ [trace] }, none)
    else if trace.type = "voltage" ∨ trace.type = "current" then
      ({ self with plot_name := some (strOr self.plot_name ("DC transfer characteristic")),
                   flag_numtype := "real", traces := self.traces ++ [trace] }, none)
    else if trace.type = "param" then
      ({ self with plot_name := some (strOr self.plot_name ("Operating Point")),
                   flag_numtype := "real", traces := self.traces ++ [trace] }, none)
    else
      (self, some (.valueError ("First Trace needs to be either time, frequency, param, voltage")))
  else
    if (self.traces.headD default).data.length ≠ trace.data.length then
      (self, some (.indexError ("The trace needs to be the same size of the trace 0")))
    else
      ({ self with traces := self.traces ++ [trace] }, none)

/-- `_format_for_trace` (lines 73-80). -/
def _format_for_trace (datatype : String) : String :=
  if datatype = "time" then "d"
  else if datatype = "frequency" then "dd"
  else "f"

/-- `struct.calcsize` restricted to the format strings produced by
`_format_for_trace`: each `d` is an 8-byte float, each `f` a 4-byte float. -/
def packSize (fmt : String) : Nat :=
  (fmt.toList.map (fun c => if c = 'd' then 8 else if c = 'f' then 4 else 0)).sum

/-- `struct.pack(fmt, value)` at the call shape of lines 148 and 153:
exactly ONE value is supplied, so packing succeeds — writing
`calcsize(fmt)` bytes — only when the format expects one item; the
two-item frequency format `dd` always raises `struct.error` before
anything is written.  (The message is fixed to the only failing item count
this writer can produce, namely two items with one given.) -/
def packLen (fmt : String) (_value : Rat) : Except PyError Nat :=
  if fmt.length = 1 then .ok (packSize fmt)
  else .error (.structError ("pack expected 2 items for packing (got 1)"))

/-- The inner loop of the fast-access branch (lines 147-148): one
`f.write(pack(fmt, value))` per stored sample, stopping at the first
raising `pack`. -/
def packValues (fmt : String) : List Rat → Except PyError Nat
  | [] => .ok 0
  | v :: rest =>
    match packLen fmt v with
    | .ok b =>
      match packValues fmt rest with
      | .ok r => .ok (b + r)
      | .error er => .error er
    | .error er => .error er

/-- Byte count of the fast-access branch of `save` for one trace
(lines 146-148): all samples of the trace contiguous, or the first pack
failure. -/
def tracePackedBytes (t : Trace) : Except PyError Nat :=
  packValues (_format_for_trace t.type) t.data

/-- Accumulates `tracePackedBytes` over the traces in order (outer loop of
lines 141-148). -/
def sumTraceBytes : List Trace → Except PyError Nat
  | [] => .ok 0
  | t :: rest =>
    match tracePackedBytes t with
    | .ok b =>
      match sumTraceBytes rest with
      | .ok r => .ok (b + r)
      | .error er => .error er
    | .error er => .error er

/-- Total byte count of the binary payload written by `save` when
`flag_fastaccess` is set (lines 140-148), or the exception that aborts the
write. -/
def savePayloadFastLen (self : LTSpiceRawWrite) : Except PyError Nat :=
  sumTraceBytes self.traces

/-- One row of the normal (row-major) branch of `save` (lines 150-153):
`pack(fmt, trace[i])` for every trace in order; indexing a trace out of
range raises `IndexError` (sample access contract of the `DataSet` base,
modelled from the spec), and the pack itself raises `struct.error` on the
two-item frequency format. -/
def rowBytes : List Trace → Nat → Except PyError Nat
  | [], _ => .ok 0
  | t :: rest, i =>
    match t.data.get? i with
    | some v =>
      match packLen (_format_for_trace t.type) v with
      | .ok b =>
        match rowBytes rest i with
        | .ok r => .ok (b + r)
        | .error er => .error er
      | .error er => .error er
    | none => .error (.indexError ("list index out of range"))

/-- Accumulates `rowBytes` over the given sample indices. -/
def sumRowBytes (traces : List Trace) : List Nat → Except PyError Nat
  | [] => .ok 0
  | i :: rest =>
    match rowBytes traces i with
    | .ok b =>
      match sumRowBytes traces rest with
      | .ok r => .ok (b + r)
      | .error er => .error er
    | .error er => .error er

/-- Total byte count of the binary payload written by `save` when
`flag_fastaccess` is not set (lines 149-153): for each sample index of
trace 0, one value from every trace. -/
def savePayloadNormalLen (self : LTSpiceRawWrite) : Except PyError Nat :=
  match self.traces.head? with
  | none => .error (.indexError ("list index out of range"))
  | some t0 => sumRowBytes self.traces (List.range t0.data.length)

/-- Python `str.startswith` over the character-list model of strings. -/
def listStartsWith (s p : List Char) : Bool := decide (s.take p.length = p)

/-- Python `str.endswith` over the character-list model of strings. -/
def listEndsWith (s p : List Char) : Bool := decide (s.reverse.take p.length = p.reverse)

/-- `_rename_netlabel` (lines 156-163), over the character-list model of
Python strings.  `rename_format` models the template application
`rename_format.format(name, **kwargs)` as a function of the name.  Since
Python `and` binds tighter than `or`, the condition groups as: (name ends
with a closing parenthesis AND starts with a V-call tag) OR (name starts
with an I-call tag); `name[:2]` is `take 2` and `name[-1]` is the last
character. -/
def _rename_netlabel (rename_format : List Char → List Char) (name : List Char) : List Char :=
  if (listEndsWith name [')'] && listStartsWith name ['V', '(']) ||
      listStartsWith name ['I', '('] then
    name.take 2 ++ rename_format name ++ name.drop (name.length - 1)
  else
    rename_format name

/-- One trace of the excluded reader component; modelled from the spec's
collaborator interface: it has a name, a kind, and one sample sequence per
step. -/
structure ForeignTrace where
  name : String
  type : String
  waves : List (List Rat)
deriving Repr, DecidableEq, Inhabited

/-- Modelled from the spec: `getWave(step)` of a reader trace returns its
sample sequence for the requested step. -/
def ForeignTrace.getWave (t : ForeignTrace) (step : Nat) : List Rat :=
  t.waves.getD step []

/-- The excluded reader component (`LTSpiceRawRead`); modelled from the
spec's collaborator interface: it exposes its `Flags` property string and
an ordered trace collection, trace 0 being the axis. -/
structure LTSpiceRawRead where
  flagsProp : String
  ftraces : List ForeignTrace
deriving Repr, DecidableEq

/-- Modelled from the spec: `get_axis(step)` returns the independent-axis
samples (trace 0's wave) at the requested step. -/
def LTSpiceRawRead.get_axis (r : LTSpiceRawRead) (step : Nat) : List Rat :=
  (r.ftraces.headD default).getWave step

/-- Modelled from the spec: `get_trace(name)` of the reader returns the
first trace with that name, or fails with `NotFound`. -/
def LTSpiceRawRead.findTrace (r : LTSpiceRawRead) (name : String) : Option ForeignTrace :=
  r.ftraces.find? (fun t => t.name = name)

/-- `get_trace` of the writer by name (lines 281-286): first exact match in
insertion order, `none` when absent. -/
def get_trace_name (self : LTSpiceRawWrite) (name : String) : Option Trace :=
  self.traces.find? (fun t => t.name = name)

/-- `_name_exists` (lines 165-170). -/
def _name_exists (self : LTSpiceRawWrite) (name : String) : Bool :=
  self.traces.any (fun t => t.name = name)

/-- Python `str.split(separator_space)` over the character-list model:
splits at every single space, keeping empty fragments. -/
def splitSpaceAux : List Char → List Char → List (List Char)
  | cur, [] => [cur.reverse]
  | cur, c :: rest =>
    if c = ' ' then cur.reverse :: splitSpaceAux [] rest
    else splitSpaceAux (c :: cur) rest

/-- Python `flags.split(separator_space)`. -/
def pySplitSpace (s : List Char) : List (List Char) := splitSpaceAux [] s

/-- Lines 196-201: the foreign numeric-type flag is the first token of the
`Flags` property equal to `real` or `complex`; the `for`-`else` defaults to
`real` when neither token occurs. -/
def parse_flag_numtype (flags : String) : String :=
  match (pySplitSpace flags.toList).find?
      (fun f => f == "real".toList || f == "complex".toList) with
  | some f => String.mk f
  | none => "real"

/-- The keyword arguments read by `add_traces_from_raw` (lines 205-209); in
Python they default to `False`, `1e-11`, the identity template, `0` and
`0.0`.  `rename_format` models the template application
`rename_format.format(name, **kwargs)` as a function of the name. -/
structure MergeKwargs where
  force_axis_alignment : Bool
  admissible_error : Rat
  rename_format : String → String
  step : Nat
  fixed_timestep : Rat

/-- Python dict-key insertion order for repeated assignments: keeps the
first occurrence of each name (re-assigning an existing key neither moves
it nor, here, changes its value).  Written with an explicit accumulator of
names already seen. -/
def dedupKeepFirstAux (seen : List String) : List String → List String
  | [] => []
  | x :: xs =>
    if x ∈ seen then dedupKeepFirstAux seen xs
    else x :: dedupKeepFirstAux (seen ++ [x]) xs

/-- The distinct keys of the `incoming_data` / `existing_data` dicts, in
insertion order. -/
def dedupKeepFirst (l : List String) : List String := dedupKeepFirstAux [] l

/-- Python `abs` on our number model. -/
def pyAbs (q : Rat) : Rat := if q < 0 then -q else q

/-- Lines 230-232: `incoming_data[name] = other.get_trace(name).get_wave(from_step)`
for each requested name, failing with `NotFound` on an unknown name
(reader lookup contract modelled from the spec). -/
def buildIncoming (other : LTSpiceRawRead) (step : Nat) :
    List String → Except PyError (List (String × List Rat))
  | [] => .ok []
  | n :: rest =>
    match other.findTrace n with
    | none => .error (.notFound n)
    | some t =>
      match buildIncoming other step rest with
      | .ok l => .ok ((n, t.getWave step) :: l)
      | .error er => .error er

/-- Lines 252-255: `acc[name].append(src[name][idx])` for every entry, in
dict order; `src` and `acc` run in parallel.  An out-of-range index raises
`IndexError`. -/
def appendEach (src : List (String × List Rat)) (idx : Nat) :
    List (List Rat) → Except PyError (List (List Rat))
  | [] => .ok []
  | a :: restAcc =>
    match src with
    | [] => .ok (a :: restAcc)
    | (_, sdata) :: restSrc =>
      match sdata.get? idx with
      | some v =>
        match appendEach restSrc idx restAcc with
        | .ok l => .ok ((a ++ [v]) :: l)
        | .error er => .error er
      | none => .error (.indexError ("list index out of range"))

/-- The two-pointer reconciliation loop (lines 239-255), with local cursor
`e` and foreign cursor `i`.  The loop body appends one unified-axis sample,
advances the cursors, and then appends `incoming[name][i]` and
`existing[name][e]` at the updated cursors.  The recursion is driven by a
`fuel` counter so that the definition is structurally recursive and
kernel-computable; each iteration advances at least one cursor, so the call
site's fuel of `my_axis.length + other_axis.length` is never exhausted
before the `while` guard `e < len(my_axis)-1 and i < len(other_axis)-1`
turns false (`mergeLoop_fuel_irrelevant` below makes this precise). -/
def mergeLoop (myAxis otherAxis : List Rat) (adm : Rat)
    (incoming existing : List (String × List Rat)) :
    Nat → Nat → Nat → List Rat → List (List Rat) → List (List Rat) →
    Except PyError (List Rat × List (List Rat) × List (List Rat))
  | 0, _, _, newAxis, newAcc, updAcc => .ok (newAxis, newAcc, updAcc)
  | fuel + 1, e, i, newAxis, newAcc, updAcc =>
    if e < myAxis.length - 1 ∧ i < otherAxis.length - 1 then
      let err := otherAxis.getD i 0 - myAxis.getD e 0
      let choice : List Rat × Nat × Nat :=
        if pyAbs err < adm then (newAxis ++ [myAxis.getD e 0], e + 1, i + 1)
        else if err < 0 then (newAxis ++ [otherAxis.getD i 0], e, i + 1)
        else (newAxis ++ [myAxis.getD e 0], e + 1, i)
      match appendEach incoming choice.2.2 newAcc with
      | .error er => .error er
      | .ok newAcc2 =>
        match appendEach existing choice.2.1 updAcc with
        | .error er => .error er
        | .ok updAcc2 =>
          mergeLoop myAxis otherAxis adm incoming existing fuel
            choice.2.1 choice.2.2 choice.1 newAcc2 updAcc2
    else .ok (newAxis, newAcc, updAcc)

/-- The fuel driving `mergeLoop` is an upper bound on the iteration count,
not part of the modelled semantics: above the remaining-cursor measure the
result does not depend on it.  In particular the call-site fuel
`my_axis.length + other_axis.length` always exceeds the measure, so the
fuel-exhaustion branch is never what terminates the loop. -/
theorem mergeLoop_fuel_irrelevant (myAxis otherAxis : List Rat) (adm : Rat)
    (incoming existing : List (String × List Rat)) :
    ∀ (fuel e i : Nat) (newAxis : List Rat) (newAcc updAcc : List (List Rat)),
      myAxis.length - 1 - e + (otherAxis.length - 1 - i) < fuel →
      mergeLoop myAxis otherAxis adm incoming existing fuel e i newAxis newAcc updAcc =
        mergeLoop myAxis otherAxis adm incoming existing (fuel + 1) e i newAxis newAcc
          updAcc := by
  intro fuel
  induction fuel with
  | zero =>
    intro e i newAxis newAcc updAcc h
    exact absurd h (Nat.not_lt_zero _)
  | succ f ih =>
    intro e i newAxis newAcc updAcc h
    rw [mergeLoop.eq_2, mergeLoop.eq_2]
    by_cases hg : e < myAxis.length - 1 ∧ i < otherAxis.length - 1
    · rw [if_pos hg, if_pos hg]
      by_cases h1 : pyAbs (otherAxis.getD i 0 - myAxis.getD e 0) < adm
      · simp only [if_pos h1]
        cases hA : appendEach incoming (i + 1) newAcc with
        | error er => rfl
        | ok nA2 =>
          cases hB : appendEach existing (e + 1) updAcc with
          | error er => rfl
          | ok uA2 =>
            exact ih (e + 1) (i + 1) _ _ _ (by omega)
      · by_cases h2 : otherAxis.getD i 0 - myAxis.getD e 0 < 0
        · simp only [if_neg h1, if_pos h2]
          cases hA : appendEach incoming (i + 1) newAcc with
          | error er => rfl
          | ok nA2 =>
            cases hB : appendEach existing e updAcc with
            | error er => rfl
            | ok uA2 =>
              exact ih e (i + 1) _ _ _ (by omega)
        · simp only [if_neg h1, if_neg h2]
          cases hA : appendEach incoming i newAcc with
          | error er => rfl
          | ok nA2 =>
            cases hB : appendEach existing (e + 1) updAcc with
            | error er => rfl
            | ok uA2 =>
              exact ih (e + 1) i _ _ _ (by omega)
    · rw [if_neg hg, if_neg hg]

/-- A read of foreign trace data performed by the merge: `get_axis(step)`
or `get_trace(name).get_wave(step)`. -/
inductive ForeignRead where
  | axis : Nat → ForeignRead
  | wave : String → Nat → ForeignRead
deriving Repr, DecidableEq

/-- Result of `add_traces_from_raw`: the writer state when the call
returned or raised, the raised exception (if any), and the foreign trace
data reads performed. -/
structure MergeOutcome where
  state : LTSpiceRawWrite
  error : Option PyError
  reads : List ForeignRead

/-- Direct-mode trace import (lines 268-270): for each requested name in
order, fetch the foreign wave at `step` and append a `Trace` constructed
with the renamed name; each append happens before the next lookup, so a
failing lookup leaves the earlier appends in place. -/
def directAppend (self : LTSpiceRawWrite) (other : LTSpiceRawRead)
    (kw : MergeKwargs) (reads : List ForeignRead) :
    List String → MergeOutcome
  | [] => ⟨self, none, reads⟩
  | n :: rest =>
    match other.findTrace n with
    | none => ⟨self, some (.notFound n), reads⟩
    | some t =>
      directAppend
        { self with traces := self.traces ++ [Trace.init (kw.rename_format n) (t.getWave kw.step)] }
        other kw (reads ++ [.wave n kw.step]) rest

/-- `add_traces_from_raw` (lines 172-270).  The translation follows the
Python control flow statement by statement: flag parsing, the short-circuit
type precondition of line 203 (which indexes `self._traces[0]` and so
raises `IndexError` on an empty writer before the line-211 seeding branch
can run), keyword parsing, the (consequently unreachable) axis-seeding
branch, the unconditional axis reads of lines 215-216, and the three-way
split between `NotImplementedError`, the reconciliation merge, and the
direct append. -/
def add_traces_from_raw (self : LTSpiceRawWrite) (other : LTSpiceRawRead)
    (trace_filter : List String) (kw : MergeKwargs) : MergeOutcome :=
  let other_flag_num_type := parse_flag_numtype other.flagsProp
  if self.flag_numtype ≠ other_flag_num_type then
    ⟨self, some (.valueError ("The two instances should have the same type")), []⟩
  else
    match self.traces.head? with
    | none => ⟨self, some (.indexError ("list index out of range")), []⟩
    | some t0 =>
      match other.ftraces.head? with
      | none => ⟨self, some (.indexError ("list index out of range")), []⟩
      | some ot0 =>
        if t0.type ≠ ot0.type then
          ⟨self, some (.valueError ("The two instances should have the same type")), []⟩
        else
          let from_step := kw.step
          let minimum_timestep := kw.fixed_timestep
          let seeded := self.traces.length = 0
          let self1 :=
            if seeded then
              { self with traces := self.traces ++ [Trace.init ot0.name (other.get_axis from_step)] }
            else self
          let force_axis_alignment := if seeded then false else kw.force_axis_alignment
          let reads0 : List ForeignRead := if seeded then [.axis from_step] else []
          let my_axis := (self1.traces.headD default).data
          let other_axis := other.get_axis 0
          let reads1 := reads0 ++ [.axis 0]
          if force_axis_alignment ∨ minimum_timestep > 0 then
            if minimum_timestep > 0 then ⟨self1, some .notImplementedError, reads1⟩
            else
              let names := dedupKeepFirst trace_filter
              match buildIncoming other from_step names with
              | .error er => ⟨self1, some er, reads1⟩
              | .ok incoming =>
                let reads2 := reads1 ++ names.map (fun n => .wave n from_step)
                let existingNames := dedupKeepFirst ((self1.traces.drop 1).map (fun t => t.name))
                let existing := existingNames.map (fun n =>
                  (n, (match get_trace_name self1 n with
                       | some t => t.data
                       | none => [])))
                let axis_name := (self1.traces.headD default).name
                match mergeLoop my_axis other_axis kw.admissible_error incoming existing
                    (my_axis.length + other_axis.length) 0 0 []
                    (incoming.map (fun _ => [])) (existing.map (fun _ => [])) with
                | .error er => ⟨self1, some er, reads2⟩
                | .ok (new_axis, _, _) =>
                  ⟨{ self1 with traces :=
                      Trace.init axis_name new_axis ::
                        (incoming.map (fun p => Trace.init p.1 p.2) ++
                         existing.map (fun p => Trace.init p.1 p.2)) },
                    none, reads2⟩
          else
            if (self1.traces.headD default).data.length ≠ (other.get_axis 0).length then
              ⟨self1, some (.assertionError ("The two instances should have the same size")),
                reads1 ++ [.axis 0]⟩
            else
              directAppend self1 other kw (reads1 ++ [.axis 0]) trace_filter

/-- Caller-owned mutable sequence storage: a heap of sample lists indexed
by reference. -/
abbrev Heap := List (List Rat)

/-- What `Trace.__init__` stores in `self.data` (lines 43-46): either a
fresh copy of the samples or a reference into caller-owned storage. -/
inductive TraceStorage where
  | copied : List Rat → TraceStorage
  | aliased : Nat → TraceStorage
deriving Repr, DecidableEq

/-- Lines 43-46 of `Trace.__init__` with the object graph made explicit:
when `USE_NNUMPY` holds and the argument is a Python `list` or `tuple`,
`self.data = array(data)` stores a copy of the referenced samples;
otherwise `self.data = data` stores the caller's reference itself. -/
def traceInitStorage (useNumpy : Bool) (dataIsListOrTuple : Bool) (dataRef : Nat)
    (h : Heap) : TraceStorage :=
  if useNumpy && dataIsListOrTuple then .copied (h.getD dataRef [])
  else .aliased dataRef

/-- The samples a trace observes under a given heap. -/
def storedSamples (h : Heap) : TraceStorage → List Rat
  | .copied v => v
  | .aliased r => h.getD r []

/-- In-place mutation of a caller-owned sequence. -/
def heapWrite (h : Heap) (r : Nat) (v : List Rat) : Heap := h.set r v

/-! ### Helper lemmas -/

theorem packSize_d : packSize ("d") = 8 := by decide

theorem packSize_dd : packSize ("dd") = 16 := by decide

theorem packSize_f : packSize ("f") = 4 := by decide

theorem take_one_cons (a : Char) (l : List Char) : (a :: l).take 1 = [a] := rfl

theorem take_two_cons (a b : Char) (l : List Char) : (a :: b :: l).take 2 = [a, b] := rfl

/-! ### C10: classification of `Trace.__init__` by exact name match -/

/-- C10.  `Trace` construction classifies kind and numeric representation
solely by exact match on the name: `time` gives kind `time` (real),
`frequency` gives kind `frequency` (complex), every other name gives kind
`voltage` (real); consequently the serialisation width of a trace named
`time` is the 8-byte axis format (16 bytes for `frequency`, 4 bytes for
everything else), and the kinds `current` and `param` are never produced
by this constructor. -/
theorem trace_init_classification (name : String) (data : List Rat) :
    (Trace.init name data).type =
      (if name = "time" then "time" else if name = "frequency" then "frequency" else "voltage") ∧
    (Trace.init name data).numerical_type =
      (if name = "frequency" then "complex" else "real") ∧
    packSize (_format_for_trace (Trace.init name data).type) =
      (if name = "time" then 8 else if name = "frequency" then 16 else 4) ∧
    (Trace.init name data).type ≠ "current" ∧
    (Trace.init name data).type ≠ "param" := by
  by_cases h1 : name = "time"
  · subst h1
    simp [Trace.init, _format_for_trace, packSize_d]
  · by_cases h2 : name = "frequency"
    · subst h2
      simp [Trace.init, _format_for_trace, packSize_dd]
    · simp [Trace.init, _format_for_trace, packSize_f, h1, h2]

/-- C10 witness: the classification evaluated at concrete names. -/
theorem trace_init_classification_witness :
    (Trace.init ("time") []).type = "time" ∧
    (Trace.init ("frequency") []).numerical_type = "complex" ∧
    packSize (_format_for_trace (Trace.init ("N001") [0]).type) = 4 := by
  refine ⟨?_, ?_, ?_⟩
  · have h := (trace_init_classification ("time") []).1
    simpa using h
  · have h := (trace_init_classification ("frequency") []).2.1
    simpa using h
  · have h := (trace_init_classification ("N001") [0]).2.2.1
    simpa using h

/-! ### C9: first-trace defaults of `add_trace` -/

/-- C9.  Adding a first trace of kind `time` to an empty writer succeeds,
sets `flag_numtype` to `real` and, when no title was given (`None` or the
empty string), sets the plot name to `Time Transient`; a first trace of
kind `frequency` sets `complex` and `AC Analysis`. -/
theorem add_trace_first_defaults (s : LTSpiceRawWrite) (t : Trace) (h0 : s.traces = []) :
    (t.type = "time" →
      (add_trace s t).2 = none ∧
      (add_trace s t).1.flag_numtype = "real" ∧
      ((s.plot_name = none ∨ s.plot_name = some ("")) →
        (add_trace s t).1.plot_name = some ("Time Transient"))) ∧
    (t.type = "frequency" →
      (add_trace s t).2 = none ∧
      (add_trace s t).1.flag_numtype = "complex" ∧
      ((s.plot_name = none ∨ s.plot_name = some ("")) →
        (add_trace s t).1.plot_name = some ("AC Analysis"))) := by
  constructor
  · intro ht
    refine ⟨?_, ?_, ?_⟩
    · simp [add_trace, h0, ht]
    · simp [add_trace, h0, ht]
    · rintro (hp | hp) <;> simp [add_trace, h0, ht, hp, strOr]
  · intro ht
    refine ⟨?_, ?_, ?_⟩
    · simp [add_trace, h0, ht]
    · simp [add_trace, h0, ht]
    · rintro (hp | hp) <;> simp [add_trace, h0, ht, hp, strOr]

/-- C9 witness: the defaults on a fresh writer (constructed with the Python
default title, the empty string) and first traces named `time` and
`frequency`. -/
theorem add_trace_first_defaults_witness :
    (add_trace (LTSpiceRawWrite.init (some ("")) true) (Trace.init ("time") [0])).2 = none ∧
    (add_trace (LTSpiceRawWrite.init (some ("")) true) (Trace.init ("time") [0])).1.flag_numtype
      = "real" ∧
    (add_trace (LTSpiceRawWrite.init (some ("")) true) (Trace.init ("time") [0])).1.plot_name
      = some ("Time Transient") ∧
    (add_trace (LTSpiceRawWrite.init (some ("")) true) (Trace.init ("frequency") [0])).1.flag_numtype
      = "complex" ∧
    (add_trace (LTSpiceRawWrite.init (some ("")) true) (Trace.init ("frequency") [0])).1.plot_name
      = some ("AC Analysis") := by
  have h1 := (add_trace_first_defaults (LTSpiceRawWrite.init (some ("")) true)
    (Trace.init ("time") [0]) rfl).1 (by decide)
  have h2 := (add_trace_first_defaults (LTSpiceRawWrite.init (some ("")) true)
    (Trace.init ("frequency") [0]) rfl).2 (by decide)
  exact ⟨h1.1, h1.2.1, h1.2.2 (Or.inr rfl), h2.2.1, h2.2.2 (Or.inr rfl)⟩

/-! ### C5: numeric-type mismatch fails before any foreign read -/

/-- C5.  Whenever the foreign numeric-type flag parsed from the `Flags`
property differs from the local `flag_numtype`, the merge raises the
type-mismatch `ValueError` immediately: the state (in particular the trace
list) is unchanged and no foreign trace data has been read. -/
theorem merge_numtype_mismatch_pure (s : LTSpiceRawWrite) (other : LTSpiceRawRead)
    (tf : List String) (kw : MergeKwargs)
    (h : parse_flag_numtype other.flagsProp ≠ s.flag_numtype) :
    add_traces_from_raw s other tf kw =
      ⟨s, some (.valueError ("The two instances should have the same type")), []⟩ := by
  simp only [add_traces_from_raw]
  rw [if_pos (Ne.symm h)]

/-- C5 witness: a `real` writer merged with a `complex` foreign source. -/
theorem merge_numtype_mismatch_pure_witness :
    add_traces_from_raw (LTSpiceRawWrite.init (some ("")) true)
        ⟨("complex fastaccess"), []⟩ [] ⟨false, 0, id, 0, 0⟩ =
      ⟨LTSpiceRawWrite.init (some ("")) true,
        some (.valueError ("The two instances should have the same type")), []⟩ :=
  merge_numtype_mismatch_pure _ _ _ _ (by decide)

/-! ### C8: copy-versus-alias behaviour of `Trace.__init__` -/

/-- C8 counterexample: with numpy in use but the supplied data already an
array (not a Python `list` or `tuple`), `Trace.__init__` stores the
caller's reference, so mutating the caller-owned sequence afterwards
changes the trace's observed samples. -/
theorem trace_storage_alias_counterexample :
    storedSamples (heapWrite [[(1 : Rat), 2]] 0 [3])
        (traceInitStorage true false 0 [[(1 : Rat), 2]]) ≠
      storedSamples [[(1 : Rat), 2]] (traceInitStorage true false 0 [[(1 : Rat), 2]]) := by
  decide

/-- C8 amended.  `Trace.__init__` copies the supplied samples exactly when
numpy storage is in use and the argument is a Python `list` or `tuple` (in
which case later caller mutation cannot change the stored samples);
otherwise the samples are stored by reference to caller-owned storage. -/
theorem trace_storage_copy_iff (useNumpy dataIsListOrTuple : Bool) (r : Nat) (h : Heap)
    (r2 : Nat) (v : List Rat) :
    (useNumpy = true → dataIsListOrTuple = true →
      storedSamples (heapWrite h r2 v) (traceInitStorage useNumpy dataIsListOrTuple r h) =
        storedSamples h (traceInitStorage useNumpy dataIsListOrTuple r h)) ∧
    ((useNumpy = false ∨ dataIsListOrTuple = false) →
      traceInitStorage useNumpy dataIsListOrTuple r h = .aliased r) := by
  constructor
  · intro hu hd
    simp [traceInitStorage, storedSamples, hu, hd]
  · rintro (hf | hf) <;> simp [traceInitStorage, hf]

/-- C8 witness: the copy case evaluated on a concrete heap and the alias
case at concrete flags. -/
theorem trace_storage_copy_iff_witness :
    storedSamples (heapWrite [[(5 : Rat)]] 0 [7])
        (traceInitStorage true true 0 [[(5 : Rat)]]) =
      storedSamples [[(5 : Rat)]] (traceInitStorage true true 0 [[(5 : Rat)]]) ∧
    traceInitStorage false true 1 [] = .aliased 1 :=
  ⟨(trace_storage_copy_iff true true 0 [[(5 : Rat)]] 0 [7]).1 rfl rfl,
   (trace_storage_copy_iff false true 1 [] 0 []).2 (Or.inl rfl)⟩

/-! ### C6: duplicate-name renaming `_rename_netlabel` -/

/-- A sample rename template, modelling a format string that appends a
suffix to its argument. -/
def c6fmt : List Char → List Char := fun s => s ++ ['_', '1']

/-- C6 counterexample: for the name `V(out)` and a template appending
`_1`, the code substitutes the WHOLE name (not the inner token) between
the preserved 2-character tag and the trailing delimiter, producing
`V(V(out)_1)` instead of the claimed `V(out_1)`. -/
theorem rename_netlabel_counterexample :
    _rename_netlabel c6fmt ("V(out)".toList) ≠ ("V(out_1)".toList) := by decide

/-- C6 amended.  A name of the form `V(` + inner + `)` is renamed to
`V(` + renameFormat(whole name) + `)` (the template receives the whole
name, not the inner token); a name starting with `I(` takes the same
wrapped rename regardless of its final character (the closing-delimiter
test is short-circuited away by operator precedence), keeping its leading
two characters and its last character; every other name is renamed by
applying the template to the whole name directly. -/
theorem rename_netlabel_behavior (fmt : List Char → List Char) :
    (∀ inner : List Char,
      _rename_netlabel fmt ('V' :: '(' :: (inner ++ [')'])) =
        'V' :: '(' :: (fmt ('V' :: '(' :: (inner ++ [')'])) ++ [')'])) ∧
    (∀ rest : List Char,
      _rename_netlabel fmt ('I' :: '(' :: rest) =
        'I' :: '(' :: (fmt ('I' :: '(' :: rest) ++ ('(' :: rest).drop rest.length)) ∧
    (∀ name : List Char,
      listStartsWith name ['I', '('] = false →
      (listEndsWith name [')'] && listStartsWith name ['V', '(']) = false →
      _rename_netlabel fmt name = fmt name) := by
  refine ⟨fun inner => ?_, fun rest => ?_, fun name h1 h2 => ?_⟩
  · have hrev : ('V' :: '(' :: (inner ++ [')'])).reverse = ')' :: (inner.reverse ++ ['(', 'V']) := by
      simp
    have hE : listEndsWith ('V' :: '(' :: (inner ++ [')'])) [')'] = true := by
      simp [listEndsWith, hrev, take_one_cons]
    have hS : listStartsWith ('V' :: '(' :: (inner ++ [')'])) ['V', '('] = true := by
      simp [listStartsWith, take_two_cons]
    have hlen : ('V' :: '(' :: (inner ++ [')'])).length - 1 = inner.length + 2 := by
      simp
    have hdrop : ('V' :: '(' :: (inner ++ [')'])).drop
        (('V' :: '(' :: (inner ++ [')'])).length - 1) = [')'] := by
      rw [hlen]
      show (inner ++ [')']).drop inner.length = [')']
      exact List.drop_left inner [')']
    simp only [_rename_netlabel, hE, hS, Bool.true_and, Bool.true_or, if_pos, hdrop,
      take_two_cons]
    simp
  · have hS : listStartsWith ('I' :: '(' :: rest) ['I', '('] = true := by
      simp [listStartsWith, take_two_cons]
    have hlen : ('I' :: '(' :: rest).length - 1 = rest.length + 1 := by
      simp
    have hdrop : ('I' :: '(' :: rest).drop (('I' :: '(' :: rest).length - 1) =
        ('(' :: rest).drop rest.length := by
      rw [hlen]
      rfl
    simp only [_rename_netlabel, hS, Bool.or_true, if_pos, hdrop, take_two_cons]
    simp
  · simp [_rename_netlabel, h1, h2]

/-- C6 witness: the amended rename evaluated at concrete names for each of
the three cases. -/
theorem rename_netlabel_behavior_witness :
    _rename_netlabel c6fmt ('V' :: '(' :: (['a', 'b'] ++ [')'])) =
      'V' :: '(' :: (c6fmt ('V' :: '(' :: (['a', 'b'] ++ [')'])) ++ [')']) ∧
    _rename_netlabel c6fmt ('I' :: '(' :: ['x']) =
      'I' :: '(' :: (c6fmt ('I' :: '(' :: ['x']) ++ ('(' :: ['x']).drop (['x'].length)) ∧
    _rename_netlabel c6fmt ("N001".toList) = c6fmt ("N001".toList) :=
  ⟨(rename_netlabel_behavior c6fmt).1 ['a', 'b'],
   (rename_netlabel_behavior c6fmt).2.1 ['x'],
   (rename_netlabel_behavior c6fmt).2.2 ("N001".toList) (by decide) (by decide)⟩

/-! ### C3: byte totals of the two binary layouts and the frequency pack failure -/

theorem sum_map_mul_left (l : List Trace) (n : Nat) (f : Trace → Nat) :
    (l.map (fun t => n * f t)).sum = n * (l.map f).sum := by
  induction l with
  | nil => simp
  | cons t l ih => simp [ih, Nat.mul_add]

theorem fmt_len_one (t : Trace) (h : t.type ≠ "frequency") :
    (_format_for_trace t.type).length = 1 := by
  by_cases h1 : t.type = "time"
  · simp only [_format_for_trace, if_pos h1]
    decide
  · simp only [_format_for_trace, if_neg h1, if_neg h]
    decide

theorem packLen_one (fmt : String) (v : Rat) (h : fmt.length = 1) :
    packLen fmt v = .ok (packSize fmt) := by
  simp [packLen, h]

theorem packLen_dd (v : Rat) :
    packLen ("dd") v = .error (.structError ("pack expected 2 items for packing (got 1)")) :=
  rfl

theorem packValues_ok (fmt : String) (h : fmt.length = 1) (l : List Rat) :
    packValues fmt l = .ok (l.length * packSize fmt) := by
  induction l with
  | nil => simp [packValues]
  | cons v rest ih => simp [packValues, packLen, h, ih, Nat.succ_mul, Nat.add_comm]

theorem packValues_dd_error (v : Rat) (rest : List Rat) :
    packValues ("dd") (v :: rest) =
      .error (.structError ("pack expected 2 items for packing (got 1)")) := by
  simp [packValues, packLen_dd v]

theorem tracePackedBytes_ok (t : Trace) (h : t.type ≠ "frequency") :
    tracePackedBytes t = .ok (t.data.length * packSize (_format_for_trace t.type)) := by
  rw [tracePackedBytes]
  exact packValues_ok _ (fmt_len_one t h) _

theorem tracePackedBytes_frequency_error (t : Trace) (htf : t.type = "frequency")
    (hd : t.data ≠ []) :
    tracePackedBytes t =
      .error (.structError ("pack expected 2 items for packing (got 1)")) := by
  obtain ⟨v, vs, hv⟩ : ∃ v vs, t.data = v :: vs := by
    cases hdata : t.data with
    | nil => exact absurd hdata hd
    | cons a l2 => exact ⟨a, l2, rfl⟩
  rw [tracePackedBytes, hv]
  have hfmt : _format_for_trace t.type = "dd" := by
    simp [_format_for_trace, htf]
  rw [hfmt]
  exact packValues_dd_error v vs

theorem sumTraceBytes_ok (l : List Trace) (hnf : ∀ t ∈ l, t.type ≠ "frequency") :
    sumTraceBytes l =
      .ok ((l.map (fun t => t.data.length * packSize (_format_for_trace t.type))).sum) := by
  induction l with
  | nil => simp [sumTraceBytes]
  | cons t rest ih =>
    simp [sumTraceBytes, tracePackedBytes_ok t (hnf t (by simp)),
      ih (fun u hu => hnf u (by simp [hu]))]

theorem sumTraceBytes_frequency_error (l : List Trace)
    (hne : ∀ t ∈ l, t.data ≠ []) (hf : ∃ t ∈ l, t.type = "frequency") :
    sumTraceBytes l =
      .error (.structError ("pack expected 2 items for packing (got 1)")) := by
  induction l with
  | nil =>
    obtain ⟨t, ht, _⟩ := hf
    exact absurd ht (List.not_mem_nil t)
  | cons t rest ih =>
    by_cases htf : t.type = "frequency"
    · simp [sumTraceBytes, tracePackedBytes_frequency_error t htf (hne t (by simp))]
    · have hrest : ∃ u ∈ rest, u.type = "frequency" := by
        obtain ⟨u, hu, hut⟩ := hf
        rcases List.mem_cons.1 hu with h1 | h1
        · exact absurd (h1 ▸ hut) htf
        · exact ⟨u, h1, hut⟩
      simp [sumTraceBytes, tracePackedBytes_ok t htf,
        ih (fun u hu => hne u (by simp [hu])) hrest]

theorem rowBytes_ok (traces : List Trace) (i : Nat) (h : ∀ t ∈ traces, i < t.data.length)
    (hnf : ∀ t ∈ traces, t.type ≠ "frequency") :
    rowBytes traces i =
      .ok ((traces.map (fun t => packSize (_format_for_trace t.type))).sum) := by
  induction traces with
  | nil => simp [rowBytes]
  | cons t rest ih =>
    have hi : i < t.data.length := h t (by simp)
    have hg : t.data[i]? = some (t.data[i]) := List.getElem?_eq_getElem hi
    simp [rowBytes, hg, packLen_one _ _ (fmt_len_one t (hnf t (by simp))),
      ih (fun u hu => h u (by simp [hu])) (fun u hu => hnf u (by simp [hu]))]

theorem rowBytes_zero_frequency_error (l : List Trace)
    (hne : ∀ t ∈ l, t.data ≠ []) (hf : ∃ t ∈ l, t.type = "frequency") :
    rowBytes l 0 =
      .error (.structError ("pack expected 2 items for packing (got 1)")) := by
  induction l with
  | nil =>
    obtain ⟨t, ht, _⟩ := hf
    exact absurd ht (List.not_mem_nil t)
  | cons t rest ih =>
    obtain ⟨v, vs, hv⟩ : ∃ v vs, t.data = v :: vs := by
      cases hdata : t.data with
      | nil => exact absurd hdata (hne t (by simp))
      | cons a l2 => exact ⟨a, l2, rfl⟩
    have hg : t.data[0]? = some v := by rw [hv]; simp
    by_cases htf : t.type = "frequency"
    · have hfmt : _format_for_trace t.type = "dd" := by
        simp [_format_for_trace, htf]
      simp [rowBytes, hg, hfmt, packLen_dd]
    · have hrest : ∃ u ∈ rest, u.type = "frequency" := by
        obtain ⟨u, hu, hut⟩ := hf
        rcases List.mem_cons.1 hu with h1 | h1
        · exact absurd (h1 ▸ hut) htf
        · exact ⟨u, h1, hut⟩
      simp [rowBytes, hg, packLen_one _ _ (fmt_len_one t htf),
        ih (fun u hu => hne u (by simp [hu])) hrest]

theorem sumRowBytes_const (traces : List Trace) (rows : List Nat) (w : Nat)
    (h : ∀ i ∈ rows, rowBytes traces i = .ok w) :
    sumRowBytes traces rows = .ok (rows.length * w) := by
  induction rows with
  | nil => simp [sumRowBytes]
  | cons i rest ih =>
    simp [sumRowBytes, h i (by simp), ih (fun j hj => h j (by simp [hj])), Nat.succ_mul,
      Nat.add_comm]

theorem payload_eq_aux (t0 : Trace) (rest : List Trace)
    (hn : ∀ t ∈ t0 :: rest, t.data.length = t0.data.length)
    (hnf : ∀ t ∈ t0 :: rest, t.type ≠ "frequency") :
    sumRowBytes (t0 :: rest) (List.range t0.data.length) = sumTraceBytes (t0 :: rest) := by
  have hW : ∀ i ∈ List.range t0.data.length,
      rowBytes (t0 :: rest) i =
        .ok (((t0 :: rest).map (fun t => packSize (_format_for_trace t.type))).sum) := by
    intro i hi
    apply rowBytes_ok _ _ _ hnf
    intro t ht
    rw [hn t ht]
    exact List.mem_range.1 hi
  rw [sumRowBytes_const _ _ _ hW, List.length_range, sumTraceBytes_ok _ hnf]
  have hmap : (t0 :: rest).map (fun t => t.data.length * packSize (_format_for_trace t.type)) =
      (t0 :: rest).map (fun t => t0.data.length * packSize (_format_for_trace t.type)) := by
    apply List.map_congr_left
    intro t ht
    rw [hn t ht]
  rw [hmap, sum_map_mul_left]

/-- On frequency-free writers the two layouts do agree, with widths 8
(time) and 4 (other): the pack-failure below is confined to
frequency-kind traces. -/
theorem layout_equal_without_frequency (s : LTSpiceRawWrite) (h0 : s.traces ≠ [])
    (hlen : ∀ t ∈ s.traces, t.data.length = (s.traces.headD default).data.length)
    (hnf : ∀ t ∈ s.traces, t.type ≠ "frequency") :
    savePayloadNormalLen s = savePayloadFastLen s ∧
    savePayloadFastLen s =
      .ok ((s.traces.map (fun t =>
        (if t.type = "time" then 8 else 4) * t.data.length)).sum) := by
  obtain ⟨t0, rest, hc⟩ : ∃ t0 rest, s.traces = t0 :: rest := by
    cases hs : s.traces with
    | nil => exact absurd hs h0
    | cons a l => exact ⟨a, l, rfl⟩
  have hn : ∀ t ∈ t0 :: rest, t.data.length = t0.data.length := by
    intro t ht
    have := hlen t (by rw [hc]; exact ht)
    rwa [hc, List.headD_cons] at this
  have hnf2 : ∀ t ∈ t0 :: rest, t.type ≠ "frequency" := by
    intro t ht
    exact hnf t (by rw [hc]; exact ht)
  constructor
  · unfold savePayloadNormalLen savePayloadFastLen
    rw [hc]
    simp only [List.head?_cons]
    exact payload_eq_aux t0 rest hn hnf2
  · unfold savePayloadFastLen
    rw [sumTraceBytes_ok s.traces hnf]
    congr 1
    congr 1
    apply List.map_congr_left
    intro t ht
    have hw : packSize (_format_for_trace t.type) = (if t.type = "time" then 8 else 4) := by
      by_cases h1 : t.type = "time" <;>
        simp [_format_for_trace, h1, hnf t ht, packSize_d, packSize_f]
    rw [hw, Nat.mul_comm]

/-- C3 (code-bug evidence).  Whenever a writer holds a frequency-kind
trace with at least one sample (alongside any other non-empty traces),
both branches of `save` abort with `struct.error`: `pack` is called with
a single value where the two-item `dd` format needs two, so the claimed
completed payload — with 16 bytes per frequency sample — is never
produced in either layout. -/
theorem save_frequency_pack_crash (s : LTSpiceRawWrite) (h0 : s.traces ≠ [])
    (hne : ∀ t ∈ s.traces, t.data ≠ [])
    (hf : ∃ t ∈ s.traces, t.type = "frequency") :
    savePayloadFastLen s =
      .error (.structError ("pack expected 2 items for packing (got 1)")) ∧
    savePayloadNormalLen s =
      .error (.structError ("pack expected 2 items for packing (got 1)")) := by
  constructor
  · unfold savePayloadFastLen
    exact sumTraceBytes_frequency_error s.traces hne hf
  · obtain ⟨t0, rest, hc⟩ : ∃ t0 rest, s.traces = t0 :: rest := by
      cases hs : s.traces with
      | nil => exact absurd hs h0
      | cons a l => exact ⟨a, l, rfl⟩
    obtain ⟨m, hm⟩ : ∃ m, t0.data.length = m + 1 := by
      have : t0.data ≠ [] := hne t0 (by rw [hc]; simp)
      cases hdata : t0.data with
      | nil => exact absurd hdata this
      | cons a l2 => exact ⟨l2.length, by simp [hdata]⟩
    have hrow : rowBytes s.traces 0 =
        .error (.structError ("pack expected 2 items for packing (got 1)")) :=
      rowBytes_zero_frequency_error s.traces hne hf
    unfold savePayloadNormalLen
    rw [hc] at hrow ⊢
    simp only [List.head?_cons]
    rw [hm, List.range_succ_eq_map]
    simp [sumRowBytes, hrow]

/-- C3 witness: the single-trace frequency writer (one sample) crashes in
both layouts. -/
theorem save_frequency_pack_crash_witness :
    savePayloadFastLen
        ⟨[Trace.init ("frequency") [1]], "complex", false, true, some ("AC Analysis"), 0⟩ =
      .error (.structError ("pack expected 2 items for packing (got 1)")) ∧
    savePayloadNormalLen
        ⟨[Trace.init ("frequency") [1]], "complex", false, true, some ("AC Analysis"), 0⟩ =
      .error (.structError ("pack expected 2 items for packing (got 1)")) :=
  save_frequency_pack_crash
    ⟨[Trace.init ("frequency") [1]], "complex", false, true, some ("AC Analysis"), 0⟩
    (by simp) (by decide) (by decide)

/-! ### Writer states reachable through the public operations -/

/-- Invariant: a writer that holds a trace has a non-`None` plot name
(`add_trace` always sets one on first insertion). -/
abbrev titledInv (s : LTSpiceRawWrite) : Prop := s.traces ≠ [] → s.plot_name ≠ none

/-- Writer states constructible through `__init__`, `add_trace` and
`add_traces_from_raw` (the state after a raising call included, since the
Python object outlives the exception). -/
inductive Reachable : LTSpiceRawWrite → Prop where
  | init : ∀ (pn : Option String) (fa : Bool), Reachable (LTSpiceRawWrite.init pn fa)
  | add : ∀ (s : LTSpiceRawWrite) (t : Trace), Reachable s → Reachable (add_trace s t).1
  | merge : ∀ (s : LTSpiceRawWrite) (other : LTSpiceRawRead) (tf : List String)
      (kw : MergeKwargs), Reachable s → Reachable (add_traces_from_raw s other tf kw).state

theorem add_trace_titledInv (s : LTSpiceRawWrite) (t : Trace) (h : titledInv s) :
    titledInv (add_trace s t).1 := by
  unfold add_trace
  by_cases hc : s.plot_name = none ∨ s.traces.length = 0
  · rw [if_pos hc]
    repeat' split
    all_goals first | exact h | (intro _; simp)
  · rw [if_neg hc]
    push_neg at hc
    split
    · exact h
    · intro _
      exact hc.1

theorem directAppend_plot_name (other : LTSpiceRawRead) (kw : MergeKwargs) :
    ∀ (ns : List String) (s : LTSpiceRawWrite) (rds : List ForeignRead),
      (directAppend s other kw rds ns).state.plot_name = s.plot_name := by
  intro ns
  induction ns with
  | nil => intro s rds; rfl
  | cons n rest ih =>
    intro s rds
    simp only [directAppend]
    cases other.findTrace n with
    | none => rfl
    | some t => rw [ih]

theorem merge_state_plot_name (s : LTSpiceRawWrite) (other : LTSpiceRawRead)
    (tf : List String) (kw : MergeKwargs) :
    (add_traces_from_raw s other tf kw).state.plot_name = s.plot_name := by
  simp only [add_traces_from_raw]
  repeat' split
  all_goals (try rfl)
  all_goals (rw [directAppend_plot_name])

theorem merge_state_of_empty (s : LTSpiceRawWrite) (other : LTSpiceRawRead)
    (tf : List String) (kw : MergeKwargs) (h : s.traces = []) :
    (add_traces_from_raw s other tf kw).state = s ∧
    (add_traces_from_raw s other tf kw).error ≠ none ∧
    (add_traces_from_raw s other tf kw).reads = [] := by
  simp only [add_traces_from_raw, h, List.head?_nil]
  split
  · exact ⟨rfl, by simp, rfl⟩
  · exact ⟨rfl, by simp, rfl⟩

theorem reachable_titled (s : LTSpiceRawWrite) (h : Reachable s) : titledInv s := by
  induction h with
  | init pn fa => intro hne; exact absurd rfl hne
  | add s t hs ih => exact add_trace_titledInv s t ih
  | merge s other tf kw hs ih =>
    by_cases he : s.traces = []
    · rw [(merge_state_of_empty s other tf kw he).1]
      exact ih
    · intro _
      rw [merge_state_plot_name]
      exact ih he

/-! ### C7: length mismatch on a non-empty writer -/

/-- C7.  On every reachable writer that already holds a trace, `add_trace`
of a trace whose length differs from trace 0's raises the length-mismatch
`IndexError` and leaves the state (in particular the trace list)
unchanged. -/
theorem add_trace_length_mismatch (s : LTSpiceRawWrite) (t : Trace)
    (hr : Reachable s) (hne : s.traces ≠ [])
    (hlen : (s.traces.headD default).data.length ≠ t.data.length) :
    add_trace s t =
      (s, some (.indexError ("The trace needs to be the same size of the trace 0"))) := by
  have hpn : s.plot_name ≠ none := reachable_titled s hr hne
  have hcond : ¬(s.plot_name = none ∨ s.traces.length = 0) := by
    push_neg
    exact ⟨hpn, fun hz => hne (List.length_eq_zero.1 hz)⟩
  unfold add_trace
  rw [if_neg hcond, if_pos hlen]

/-- A writer holding one two-sample axis trace, built through the public
operations. -/
def c7Base : LTSpiceRawWrite :=
  (add_trace (LTSpiceRawWrite.init (some ("")) true) (Trace.init ("time") [0, 1])).1

/-- C7 witness: adding a one-sample trace to the two-sample writer. -/
theorem add_trace_length_mismatch_witness :
    add_trace c7Base (Trace.init ("N001") [5]) =
      (c7Base, some (.indexError ("The trace needs to be the same size of the trace 0"))) :=
  add_trace_length_mismatch c7Base (Trace.init ("N001") [5])
    (Reachable.add _ _ (Reachable.init (some ("")) true))
    (by decide) (by decide)

/-! ### C2: merging into a writer with no traces -/

/-- C2 (code-bug evidence).  For every foreign source, trace filter and
keyword set, calling `add_traces_from_raw` on a writer with no traces
raises (the line-203 precondition check either fails the flag comparison
or indexes `self._traces[0]` of an empty list) before the line-211 axis
seeding can run: the state is unchanged — no axis is seeded — and no
foreign trace data is read. -/
theorem merge_on_empty_always_raises (s : LTSpiceRawWrite) (other : LTSpiceRawRead)
    (tf : List String) (kw : MergeKwargs) (h : s.traces = []) :
    (add_traces_from_raw s other tf kw).state = s ∧
    (add_traces_from_raw s other tf kw).error ≠ none :=
  ⟨(merge_state_of_empty s other tf kw h).1, (merge_state_of_empty s other tf kw h).2.1⟩

/-- C2 witness: a fresh writer merged with a matching `real` transient
source still raises and stays empty. -/
theorem merge_on_empty_always_raises_witness :
    (add_traces_from_raw (LTSpiceRawWrite.init (some ("")) true)
        ⟨("real"), [⟨("time"), ("time"), [[0, 1]]⟩]⟩ [("V(out)")] ⟨true, 0, id, 0, 0⟩).state =
      LTSpiceRawWrite.init (some ("")) true ∧
    (add_traces_from_raw (LTSpiceRawWrite.init (some ("")) true)
        ⟨("real"), [⟨("time"), ("time"), [[0, 1]]⟩]⟩ [("V(out)")] ⟨true, 0, id, 0, 0⟩).error ≠
      none :=
  merge_on_empty_always_raises _ _ _ _ rfl

/-! ### C4: non-zero `fixed_timestep` -/

/-- C4 counterexample: with `fixed_timestep = 1` but a foreign source whose
numeric-type flag does not match, the merge raises the type-mismatch
`ValueError` of line 204, not `NotImplementedError` — so the failure mode
is not independent of the foreign source. -/
theorem merge_fixed_timestep_counterexample :
    (add_traces_from_raw
        ⟨[Trace.init ("time") [0, 1]], "real", false, true, some ("Time Transient"), 0⟩
        ⟨("complex"), [⟨("frequency"), ("frequency"), [[0, 1]]⟩]⟩ []
        ⟨false, 0, id, 0, 1⟩).error ≠ some .notImplementedError := by
  decide

/-- C4 amended.  Provided the line-203 preconditions pass — the foreign
numeric-type flag equals the local one, both sides have a trace 0, and the
axis kinds agree — a call with `fixed_timestep > 0` always raises
`NotImplementedError`, for every trace filter and every remaining keyword
(alignment flag, rename template, step, admissible error), leaving the
state unchanged after reading only the foreign axis. -/
theorem merge_fixed_timestep_not_implemented (s : LTSpiceRawWrite) (other : LTSpiceRawRead)
    (tf : List String) (kw : MergeKwargs)
    (hts : 0 < kw.fixed_timestep)
    (hflag : s.flag_numtype = parse_flag_numtype other.flagsProp)
    (hne : s.traces ≠ []) (hone : other.ftraces ≠ [])
    (htype : (s.traces.headD default).type = (other.ftraces.headD default).type) :
    add_traces_from_raw s other tf kw = ⟨s, some .notImplementedError, [.axis 0]⟩ := by
  obtain ⟨t0, rest, hc⟩ : ∃ a l, s.traces = a :: l := by
    cases hs : s.traces with
    | nil => exact absurd hs hne
    | cons a l => exact ⟨a, l, rfl⟩
  obtain ⟨o0, orest, ho⟩ : ∃ a l, other.ftraces = a :: l := by
    cases hs : other.ftraces with
    | nil => exact absurd hs hone
    | cons a l => exact ⟨a, l, rfl⟩
  have htype2 : ¬(t0.type ≠ o0.type) := by
    simp only [hc, ho, List.headD_cons] at htype
    simp [htype]
  have hflag2 : ¬(s.flag_numtype ≠ parse_flag_numtype other.flagsProp) := by
    simp [hflag]
  simp [add_traces_from_raw, hc, ho, hflag2, htype2, hts]

/-- C4 witness: a one-axis `real` transient writer, a matching foreign
source, and `fixed_timestep = 1`. -/
theorem merge_fixed_timestep_not_implemented_witness :
    add_traces_from_raw
        ⟨[Trace.init ("time") [0, 1]], "real", false, true, some ("Time Transient"), 0⟩
        ⟨("real"), [⟨("time"), ("time"), [[0, 1]]⟩]⟩ [("V(out)")]
        ⟨false, 0, id, 0, 1⟩ =
      ⟨⟨[Trace.init ("time") [0, 1]], "real", false, true, some ("Time Transient"), 0⟩,
        some .notImplementedError, [.axis 0]⟩ :=
  merge_fixed_timestep_not_implemented _ _ _ _
    (by norm_num) (by decide) (by simp) (by simp) (by decide)

/-! ### C1: the reconciliation-mode regression scenario -/

/-- The local writer of the C1 scenario: axis `A = [0, 1, 2, 3]`. -/
def c1Local : LTSpiceRawWrite :=
  ⟨[Trace.init ("time") [0, 1, 2, 3]], "real", false, true, some ("Time Transient"), 0⟩

/-- The foreign source of the C1 scenario: axis `B = [0, 1.0000000001, 2, 4]`
(the decimal written exactly as a rational; the comparison against the
admissible error is three orders of magnitude away from the boundary, so
the branch taken agrees with the Python float computation) and one
importable trace `V(out)`. -/
def c1Foreign : LTSpiceRawRead :=
  ⟨("real"), [⟨("time"), ("time"), [[0, 10000000001 / 10000000000, 2, 4]]⟩,
              ⟨("V(out)"), ("voltage"), [[10, 11, 12, 13]]⟩]⟩

/-- The C1 options: `force_axis_alignment = True`, `admissible_error = 1e-9`,
default rename format, step 0, `fixed_timestep = 0`. -/
def c1kw : MergeKwargs := ⟨true, 1 / 1000000000, id, 0, 0⟩

/-- The C1 merge call. -/
def c1out : MergeOutcome := add_traces_from_raw c1Local c1Foreign [("V(out)")] c1kw

set_option maxHeartbeats 4000000 in
theorem c1out_eq :
    c1out =
      ⟨⟨[Trace.init ("time") [0, 1, 2], Trace.init ("V(out)") [10, 11, 12, 13]],
          "real", false, true, some ("Time Transient"), 0⟩,
        none, [.axis 0, .wave ("V(out)") 0]⟩ := by
  have hfp : parse_flag_numtype c1Foreign.flagsProp = "real" := by decide
  have hhead : c1Foreign.ftraces.head? =
      some ⟨("time"), ("time"), [[0, 10000000001 / 10000000000, 2, 4]]⟩ := rfl
  have h2 : dedupKeepFirst [("V(out)")] = [("V(out)")] := by decide
  have h3 : buildIncoming c1Foreign 0 [("V(out)")] =
      .ok [(("V(out)"), [10, 11, 12, 13])] := rfl
  have h4 : c1Foreign.get_axis 0 = [0, 10000000001 / 10000000000, 2, 4] := rfl
  have h5 : dedupKeepFirst ([] : List String) = [] := rfl
  have a1 : ([0, 1, 2, 3] : List Rat)[1] = 1 := rfl
  have a2 : ([0, 1, 2, 3] : List Rat)[2] = 2 := rfl
  have b1 : ([0, 10000000001 / 10000000000, 2, 4] : List Rat)[1] =
      10000000001 / 10000000000 := rfl
  have b2 : ([0, 10000000001 / 10000000000, 2, 4] : List Rat)[2] = 2 := rfl
  have w1 : ([10, 11, 12, 13] : List Rat)[1] = 11 := rfl
  have w2 : ([10, 11, 12, 13] : List Rat)[2] = 12 := rfl
  have w3 : ([10, 11, 12, 13] : List Rat)[3] = 13 := rfl
  have v1 : ([10, 11, 12, 13] : List Rat)[1]? = some 11 := rfl
  have v2 : ([10, 11, 12, 13] : List Rat)[2]? = some 12 := rfl
  have v3 : ([10, 11, 12, 13] : List Rat)[3]? = some 13 := rfl
  norm_num [c1out, add_traces_from_raw, c1Local, c1kw, hfp, hhead, h2, h3, h4, h5,
    a1, a2, b1, b2, w1, w2, w3, v1, v2, v3,
    get_trace_name, mergeLoop, appendEach, pyAbs, Trace.init, List.getD,
    List.getElem_cons_zero, List.getElem_cons_succ,
    List.getElem?_cons_zero, List.getElem?_cons_succ]

/-- C1 counterexample: in the reconciliation scenario the unified axis the
loop produces is not `[0, 1, 2, 3]`. -/
theorem merge_reconciliation_axis_counterexample :
    (c1out.state.traces.headD default).data ≠ [0, 1, 2, 3] := by
  rw [c1out_eq]
  simp [Trace.init]

/-- C1 amended.  In the reconciliation scenario (`A = [0, 1, 2, 3]`,
`B = [0, 1.0000000001, 2, 4]`, `admissible_error = 1e-9`) the merge
succeeds and the unified axis equals `[0, 1, 2]`: the loop stops as soon
as either cursor reaches `length - 1`, so neither `A`'s final sample `3`
nor `B`'s final sample `4` is ever consumed (after three coincident steps
both cursors stand at index 3 and the guard fails). -/
theorem merge_reconciliation_axis_eval :
    c1out.error = none ∧
    (c1out.state.traces.map (fun t => t.name)) = [("time"), ("V(out)")] ∧
    (c1out.state.traces.headD default).data = [0, 1, 2] := by
  rw [c1out_eq]
  refine ⟨rfl, ?_, rfl⟩
  simp [Trace.init]

end PyLTSpice
